import Mathlib

/-!
Shallow embedding of the pixi.js scene-graph core: the `ViewContainer`
mutation/bounds discipline (`src/scene/view/ViewContainer.ts`), the
`MeshPipe` batching pipe (`src/scene/mesh/shared/MeshPipe.ts`), the
`NineSliceSprite` and `AbstractText`/`HTMLText` drawables, and the
`multiplyColors` tint helper.  JavaScript numbers are embedded as `ℚ`
(the properties at issue are order/field algebraic), object-identity
keyed hashes as functions `ℕ → Option _` over `uid`s, and side effects
as explicit state passing together with event outputs (notification
flags, emitted instructions, pool-return counts).
-/

namespace Pixi

/-- Axis-aligned bounds rectangle (`Bounds`): `minX`, `minY`, `maxX`, `maxY`. -/
structure Bounds where
  minX : ℚ
  minY : ℚ
  maxX : ℚ
  maxY : ℚ
deriving Repr, DecidableEq

/-- `Bounds.width = maxX - minX`. -/
def Bounds.width (b : Bounds) : ℚ := b.maxX - b.minX

/-- `Bounds.height = maxY - minY`. -/
def Bounds.height (b : Bounds) : ℚ := b.maxY - b.minY

/-- The mutable `ViewContainer` state that `onViewUpdate` and the `bounds`
getter read and write: the change tick `_didViewChangeTick`, the
`didViewUpdate` coalescing flag, the `_boundsDirty` flag, the cached
`_bounds`, and whether `this.renderGroup || this.parentRenderGroup` is
non-null (`hasRenderGroup`). -/
structure ViewState where
  _didViewChangeTick : ℕ
  didViewUpdate : Bool
  _boundsDirty : Bool
  _bounds : Bounds
  hasRenderGroup : Bool
deriving Repr, DecidableEq

/-- `ViewContainer.onViewUpdate`: increment `_didViewChangeTick`, set
`_boundsDirty`; if `didViewUpdate` already set, return; else set it and,
when a render group is available, call `renderGroup.onChildViewUpdate(this)`.
The returned `Bool` records whether `onChildViewUpdate` was called. -/
def onViewUpdate (s : ViewState) : ViewState × Bool :=
  let s := { s with
    _didViewChangeTick := s._didViewChangeTick + 1
    _boundsDirty := true }
  if s.didViewUpdate then (s, false)
  else
    let s := { s with didViewUpdate := true }
    if s.hasRenderGroup then (s, true) else (s, false)

/-- `n` successive `onViewUpdate` calls; the `ℕ` result counts how many of
them called `onChildViewUpdate`. -/
def onViewUpdateN : ℕ → ViewState → ViewState × ℕ
  | 0, s => (s, 0)
  | n + 1, s =>
    let r := onViewUpdate s
    let r2 := onViewUpdateN n r.1
    (r2.1, (if r.2 then 1 else 0) + r2.2)

/-- The `bounds` getter of `ViewContainer`: if not `_boundsDirty` return the
cached `_bounds`; otherwise call `updateBounds()` (passed in as the concrete
subclass implementation, which writes `_bounds`), clear the dirty flag and
return the cache.  The `ℕ` result counts `updateBounds()` calls. -/
def boundsGet (updateBounds : ViewState → Bounds) (s : ViewState) :
    Bounds × ViewState × ℕ :=
  if !s._boundsDirty then (s._bounds, s, 0)
  else
    let s := { s with _bounds := updateBounds s }
    let s := { s with _boundsDirty := false }
    (s._bounds, s, 1)

/-- A texture, identified by its unique `uid` (object identity in the source:
each `Texture` instance has a distinct `uid`), with its `dynamic` flag. -/
structure Texture where
  uid : ℕ
  dynamic : Bool
deriving Repr, DecidableEq

/-- An `ObservablePoint` value as used for `anchor` (`_x`, `_y`). -/
structure Anchor where
  _x : ℚ
  _y : ℚ
deriving Repr, DecidableEq

/-- The `NineSliceSprite` state relevant to the claims: the inherited
`ViewContainer` state, the anchor, explicit `_width`/`_height` and the
held `_texture`. -/
structure NineSliceSprite where
  view : ViewState
  _anchor : Anchor
  _width : ℚ
  _height : ℚ
  _texture : Texture
deriving Repr, DecidableEq

/-- `NineSliceSprite` inherits `ViewContainer.onViewUpdate`; the `Bool`
records whether `onChildViewUpdate` was called. -/
def NineSliceSprite.onViewUpdate (s : NineSliceSprite) : NineSliceSprite × Bool :=
  let r := Pixi.onViewUpdate s.view
  ({ s with view := r.1 }, r.2)

/-- The `NineSliceSprite` `width` setter: assign `_width`, then `onViewUpdate`. -/
def NineSliceSprite.setWidth (s : NineSliceSprite) (value : ℚ) :
    NineSliceSprite × Bool :=
  NineSliceSprite.onViewUpdate { s with _width := value }

/-- The `NineSliceSprite` `height` setter: assign `_height`, then `onViewUpdate`. -/
def NineSliceSprite.setHeight (s : NineSliceSprite) (value : ℚ) :
    NineSliceSprite × Bool :=
  NineSliceSprite.onViewUpdate { s with _height := value }

/-- The `NineSliceSprite` `texture` setter: if the incoming value is the very
texture already held (`currentTexture === value`) return immediately;
otherwise rewire the `dynamic` update listeners, assign `_texture` and call
`onViewUpdate`.  The `Bool` records whether `onViewUpdate` ran. -/
def NineSliceSprite.setTexture (s : NineSliceSprite) (value : Texture) :
    NineSliceSprite × Bool :=
  if s._texture = value then (s, false)
  else
    let r := NineSliceSprite.onViewUpdate { s with _texture := value }
    (r.1, true)

/-- `NineSliceSprite.updateBounds`: writes
`minX = -anchor._x * width`, `maxX = minX + width`,
`minY = -anchor._y * height`, `maxY = minY + height` into `_bounds`. -/
def NineSliceSprite.updateBounds (s : NineSliceSprite) : Bounds :=
  let minX := -s._anchor._x * s._width
  let maxX := minX + s._width
  let minY := -s._anchor._y * s._height
  let maxY := minY + s._height
  ⟨minX, minY, maxX, maxY⟩

/-- The inherited `bounds` getter instantiated at `NineSliceSprite`:
returns the bounds, the new sprite state and the `updateBounds()` call count. -/
def NineSliceSprite.boundsGetter (s : NineSliceSprite) :
    Bounds × NineSliceSprite × ℕ :=
  let r := boundsGet (fun _ => NineSliceSprite.updateBounds s) s.view
  (r.1, { s with view := r.2.1 }, r.2.2)

/-- `HTMLText.updateBounds`: with `measureHtmlText` returning measured
`width`/`height` (text layout is an external collaborator, so the
measurement is a parameter), writes `minX = -anchor._x * width`,
`maxX = minX + width`, `minY = -anchor._y * height`, `maxY = minY + height`. -/
def HTMLText.updateBounds (anchor : Anchor) (measuredWidth measuredHeight : ℚ) :
    Bounds :=
  let minX := -anchor._x * measuredWidth
  let maxX := minX + measuredWidth
  let minY := -anchor._y * measuredHeight
  let maxY := minY + measuredHeight
  ⟨minX, minY, maxX, maxY⟩

/-- `ViewContainer.containsPoint`: rectangle containment against `bounds`
(`x >= minX && x <= maxX && y >= minY && y <= maxY`). -/
def ViewContainer.containsPoint (bounds : Bounds) (px py : ℚ) : Bool :=
  decide (px ≥ bounds.minX) && decide (px ≤ bounds.maxX)
    && decide (py ≥ bounds.minY) && decide (py ≤ bounds.maxY)

/-- `AbstractText.containsPoint`: reads `width`/`height` off `this.bounds`,
computes `x1 = -width * anchor.x`, tests the x-range, then
`y1 = -height * anchor.y` and the y-range. -/
def AbstractText.containsPoint (bounds : Bounds) (anchor : Anchor)
    (px py : ℚ) : Bool :=
  let width := bounds.width
  let height := bounds.height
  let x1 := -width * anchor._x
  if px ≥ x1 ∧ px ≤ x1 + width then
    let y1 := -height * anchor._y
    if py ≥ y1 ∧ py ≤ y1 + height then true else false
  else false

/-- The `AbstractText` state relevant to the text setter: the inherited
`ViewContainer` state, the stored `_text`, and the `_didTextUpdate` flag
written by the `AbstractText.onViewUpdate` override. -/
structure AbstractText where
  view : ViewState
  _text : String
  _didTextUpdate : Bool
deriving Repr, DecidableEq

/-- `AbstractText.onViewUpdate` override: if `didViewUpdate` is not yet set,
set `_didTextUpdate`; then run the inherited `ViewContainer.onViewUpdate`. -/
def AbstractText.onViewUpdate (s : AbstractText) : AbstractText × Bool :=
  let s := if !s.view.didViewUpdate then { s with _didTextUpdate := true } else s
  let r := Pixi.onViewUpdate s.view
  ({ s with view := r.1 }, r.2)

/-- The `AbstractText` `text` setter, after `value.toString()` has produced a
string: if it equals the current `_text` return immediately, otherwise store
it and call `onViewUpdate`.  The `Bool` records whether `onViewUpdate` ran. -/
def AbstractText.setText (s : AbstractText) (value : String) :
    AbstractText × Bool :=
  if s._text = value then (s, false)
  else
    let r := AbstractText.onViewUpdate { s with _text := value }
    (r.1, true)

/-- A mesh geometry, abstracted to the data `MeshPipe` reads off it: the
lengths of the `indices` and `positions` arrays. -/
structure MeshGeometry where
  indicesLen : ℕ
  positionsLen : ℕ
deriving Repr, DecidableEq

/-- A `Mesh` view as seen by `MeshPipe`: its stable `uid`, its current
`batched` eligibility, its `_geometry` and its `_texture`. -/
structure Mesh where
  uid : ℕ
  batched : Bool
  _geometry : MeshGeometry
  _texture : Texture
deriving Repr, DecidableEq

/-- The pooled GPU-side `BatchableMesh` record: the texture and geometry it
currently references, and its `_textureMatrixUpdateId`. -/
structure BatchableMesh where
  textureUid : ℕ
  geometry : MeshGeometry
  _textureMatrixUpdateId : ℤ
deriving Repr, DecidableEq

/-- Modelled from the spec: `BatchableMesh.setTexture` refreshes the pooled
record's texture reference (`BatchableMesh` lives outside this core; the
spec only requires the texture/geometry pointer refresh). -/
def BatchableMesh.setTexture (bm : BatchableMesh) (t : Texture) : BatchableMesh :=
  { bm with textureUid := t.uid }

/-- The per-mesh bookkeeping record `MeshData` of `MeshPipe`. -/
structure MeshData where
  batched : Bool
  indexSize : ℕ
  vertexSize : ℕ
deriving Repr, DecidableEq

/-- The `MeshPipe` state: the `_meshDataHash` and `_gpuBatchableMeshHash`
records, both keyed by mesh `uid` (a nulled-out entry and an absent entry
are indistinguishable to the pipe's truthiness tests, so both are `none`). -/
structure MeshPipe where
  _meshDataHash : ℕ → Option MeshData
  _gpuBatchableMeshHash : ℕ → Option BatchableMesh

/-- Point update of a `uid`-keyed hash. -/
def setHash {α : Type} (h : ℕ → Option α) (k : ℕ) (v : Option α) :
    ℕ → Option α :=
  fun u => if u = k then v else h u

/-- `MeshPipe._initMeshData`: store a fresh `MeshData` snapshot of the mesh
(`batched`, `indices.length`, `positions.length`) under its `uid`. -/
def MeshPipe._initMeshData (p : MeshPipe) (m : Mesh) : MeshData × MeshPipe :=
  let d : MeshData := ⟨m.batched, m._geometry.indicesLen, m._geometry.positionsLen⟩
  (d, { p with _meshDataHash := setHash p._meshDataHash m.uid (some d) })

/-- `MeshPipe._getMeshData`: the stored record, or `_initMeshData` if absent. -/
def MeshPipe._getMeshData (p : MeshPipe) (m : Mesh) : MeshData × MeshPipe :=
  match p._meshDataHash m.uid with
  | some d => (d, p)
  | none => MeshPipe._initMeshData p m

/-- `MeshPipe._initBatchableMesh`: obtain a record from the pool
(`BigPool.get`), point it at the mesh's texture and geometry, and store it
under the mesh's `uid`. -/
def MeshPipe._initBatchableMesh (p : MeshPipe) (m : Mesh) :
    BatchableMesh × MeshPipe :=
  let bm : BatchableMesh := BatchableMesh.setTexture ⟨0, m._geometry, 0⟩ m._texture
  (bm, { p with _gpuBatchableMeshHash := setHash p._gpuBatchableMeshHash m.uid (some bm) })

/-- `MeshPipe._getBatchableMesh`: the stored record, or `_initBatchableMesh`
if absent. -/
def MeshPipe._getBatchableMesh (p : MeshPipe) (m : Mesh) :
    BatchableMesh × MeshPipe :=
  match p._gpuBatchableMeshHash m.uid with
  | some bm => (bm, p)
  | none => MeshPipe._initBatchableMesh p m

/-- `MeshPipe.validateRenderable`, parameterised by the batcher's
`checkAndUpdateTexture` compatibility test (the `Batcher` is an external
collaborator): snapshot `wasBatched`, overwrite `meshData.batched` with the
mesh's current flag, and return `true` on an eligibility flip; else, for a
batched mesh, return `true` on an index/vertex size change (recording the
new sizes); else reset `_textureMatrixUpdateId` when the texture `uid`
changed and return the negation of `checkAndUpdateTexture`. -/
def MeshPipe.validateRenderable (check : BatchableMesh → Texture → Bool)
    (p : MeshPipe) (m : Mesh) : Bool × MeshPipe :=
  let r0 := MeshPipe._getMeshData p m
  let meshData := r0.1
  let p := r0.2
  let wasBatched := meshData.batched
  let isBatched := m.batched
  let meshData := { meshData with batched := isBatched }
  let p := { p with _meshDataHash := setHash p._meshDataHash m.uid (some meshData) }
  if wasBatched ≠ isBatched then (true, p)
  else if isBatched then
    let geometry := m._geometry
    if geometry.indicesLen ≠ meshData.indexSize
        ∨ geometry.positionsLen ≠ meshData.vertexSize then
      let meshData := { meshData with
        indexSize := geometry.indicesLen
        vertexSize := geometry.positionsLen }
      (true, { p with _meshDataHash := setHash p._meshDataHash m.uid (some meshData) })
    else
      let r1 := MeshPipe._getBatchableMesh p m
      let batchableMesh := r1.1
      let p := r1.2
      let batchableMesh :=
        if batchableMesh.textureUid ≠ m._texture.uid then
          { batchableMesh with _textureMatrixUpdateId := -1 }
        else batchableMesh
      let p := { p with
        _gpuBatchableMeshHash := setHash p._gpuBatchableMeshHash m.uid (some batchableMesh) }
      (!(check batchableMesh m._texture), p)
  else (false, p)

/-- The pooled record `validateRenderable` hands to `checkAndUpdateTexture`
when it reaches that branch: the stored (or freshly initialised) record,
with `_textureMatrixUpdateId` reset when the texture `uid` changed. -/
def MeshPipe.validateUsedRecord (p : MeshPipe) (m : Mesh) : BatchableMesh :=
  let bm := (MeshPipe._getBatchableMesh p m).1
  if bm.textureUid ≠ m._texture.uid then { bm with _textureMatrixUpdateId := -1 }
  else bm

/-- An entry of the `InstructionSet` as the mesh pipe appends to it: the
break instruction the shared batcher emits, or a standalone mesh draw. -/
inductive Instruction
  | breakBatch
  | meshDraw (uid : ℕ)
deriving Repr, DecidableEq

/-- Modelled from the spec: `batcher.break(instructionSet)` — the shared
batcher (an external collaborator) flushes the accumulating batch by
emitting a break instruction into the instruction set. -/
def batcherBreak (instructionSet : List Instruction) : List Instruction :=
  instructionSet ++ [Instruction.breakBatch]

/-- `MeshPipe.addRenderable`: for a mesh recorded as batched, obtain or
lazily allocate the pooled record, `setTexture`/`geometry`-refresh it and
submit it to the shared batcher (`addToBatch`; the returned list collects
the submitted records); otherwise have the batcher emit a break and append
the mesh itself to the instruction set. -/
def MeshPipe.addRenderable (p : MeshPipe) (m : Mesh)
    (instructionSet : List Instruction) :
    MeshPipe × List Instruction × List BatchableMesh :=
  let r0 := MeshPipe._getMeshData p m
  let batched := r0.1.batched
  let p := r0.2
  if batched then
    let r1 := MeshPipe._getBatchableMesh p m
    let gpuBatchableMesh := r1.1
    let p := r1.2
    let gpuBatchableMesh := BatchableMesh.setTexture gpuBatchableMesh m._texture
    let gpuBatchableMesh := { gpuBatchableMesh with geometry := m._geometry }
    let p := { p with
      _gpuBatchableMeshHash := setHash p._gpuBatchableMeshHash m.uid (some gpuBatchableMesh) }
    (p, instructionSet, [gpuBatchableMesh])
  else
    (p, batcherBreak instructionSet ++ [Instruction.meshDraw m.uid], [])

/-- `MeshPipe.updateRenderable`, with the batcher's `checkAndUpdateTexture`
in scope as a parameter so the statement that it is never invoked is
expressible (the middle `ℕ` counts its invocations): for a batched mesh,
read the pooled record straight from `_gpuBatchableMeshHash` (`none`
models the null dereference the source would hit if it is absent),
`setTexture`/`geometry`-refresh it and notify its batcher via
`updateElement` (the returned list collects those notifications);
for a non-batched mesh, do nothing. -/
def MeshPipe.updateRenderable (check : BatchableMesh → Texture → Bool)
    (p : MeshPipe) (m : Mesh) :
    Option (MeshPipe × ℕ × List BatchableMesh) :=
  if m.batched then
    match p._gpuBatchableMeshHash m.uid with
    | some gpuBatchableMesh =>
      let gpuBatchableMesh := BatchableMesh.setTexture gpuBatchableMesh m._texture
      let gpuBatchableMesh := { gpuBatchableMesh with geometry := m._geometry }
      let p := { p with
        _gpuBatchableMeshHash := setHash p._gpuBatchableMeshHash m.uid (some gpuBatchableMesh) }
      some (p, 0, [gpuBatchableMesh])
    | none => none
  else some (p, 0, [])

/-- `MeshPipe.destroyRenderable`: null out the `_meshDataHash` entry; if a
pooled record exists, return it to `BigPool` (the `ℕ` counts pool returns)
and null out its entry; finally detach the `destroyed` listener. -/
def MeshPipe.destroyRenderable (p : MeshPipe) (m : Mesh) : MeshPipe × ℕ :=
  let p := { p with _meshDataHash := setHash p._meshDataHash m.uid none }
  match p._gpuBatchableMeshHash m.uid with
  | some _ =>
    ({ p with _gpuBatchableMeshHash := setHash p._gpuBatchableMeshHash m.uid none }, 1)
  | none => (p, 0)

/-- The white BGR constant of `multiplyColors`. -/
def WHITE_BGR : ℕ := 0xFFFFFF

/-- `multiplyColors(localBGRColor, parentBGRColor)`: short-circuit when
either side is white, otherwise defer to `multiplyHexColors` (an external
helper, passed as a parameter). -/
def multiplyColors (multiplyHexColors : ℕ → ℕ → ℕ)
    (localBGRColor parentBGRColor : ℕ) : ℕ :=
  if localBGRColor = WHITE_BGR then parentBGRColor
  else if parentBGRColor = WHITE_BGR then localBGRColor
  else multiplyHexColors localBGRColor parentBGRColor

/-! ## Theorems -/

/-- Once `didViewUpdate` is set, a further `onViewUpdate` keeps it set and
does not notify. -/
theorem onViewUpdate_of_didViewUpdate (s : ViewState) (h : s.didViewUpdate = true) :
    (onViewUpdate s).1.didViewUpdate = true ∧ (onViewUpdate s).2 = false := by
  simp [onViewUpdate, h]

/-- A run of `onViewUpdate` calls starting with `didViewUpdate` set never
notifies. -/
theorem onViewUpdateN_of_didViewUpdate :
    ∀ (n : ℕ) (s : ViewState), s.didViewUpdate = true →
      (onViewUpdateN n s).2 = 0 ∧ (onViewUpdateN n s).1.didViewUpdate = true := by
  intro n
  induction n with
  | zero => intro s h; simpa [onViewUpdateN] using h
  | succ k ih =>
    intro s h
    have h1 := onViewUpdate_of_didViewUpdate s h
    have h2 := ih (onViewUpdate s).1 h1.1
    simp [onViewUpdateN, h1.2, h2.1, h2.2]

/-- C1: each `onViewUpdate()` call increments `_didViewChangeTick` by exactly
one and sets `_boundsDirty`; with a render group available it calls
`onChildViewUpdate` iff `didViewUpdate` was false, in which case it sets
`didViewUpdate`; and `n ≥ 1` successive calls with no intervening render
produce exactly one upward notification. -/
theorem onViewUpdate_coalesces (s : ViewState) :
    (onViewUpdate s).1._didViewChangeTick = s._didViewChangeTick + 1
    ∧ (onViewUpdate s).1._boundsDirty = true
    ∧ (s.hasRenderGroup = true →
        ((onViewUpdate s).2 = true ↔ s.didViewUpdate = false))
    ∧ (s.didViewUpdate = false → (onViewUpdate s).1.didViewUpdate = true)
    ∧ (∀ n : ℕ, 1 ≤ n → s.didViewUpdate = false → s.hasRenderGroup = true →
        (onViewUpdateN n s).2 = 1) := by
  refine ⟨?_, ?_, ?_, ?_, ?_⟩
  · by_cases h : s.didViewUpdate <;> by_cases g : s.hasRenderGroup <;>
      simp [onViewUpdate, h, g]
  · by_cases h : s.didViewUpdate <;> by_cases g : s.hasRenderGroup <;>
      simp [onViewUpdate, h, g]
  · intro hg
    by_cases h : s.didViewUpdate <;> simp [onViewUpdate, h, hg]
  · intro h
    by_cases g : s.hasRenderGroup <;> simp [onViewUpdate, h, g]
  · intro n hn hd hg
    obtain ⟨k, rfl⟩ : ∃ k, n = k + 1 := ⟨n - 1, by omega⟩
    have h1 : (onViewUpdate s).2 = true := by simp [onViewUpdate, hd, hg]
    have h2 : (onViewUpdate s).1.didViewUpdate = true := by
      simp [onViewUpdate, hd, hg]
    have h3 := onViewUpdateN_of_didViewUpdate k (onViewUpdate s).1 h2
    simp [onViewUpdateN, h1, h3.1]

/-- Closed instance of `onViewUpdate_coalesces` with every hypothesis
discharged at a concrete view state. -/
theorem onViewUpdate_coalesces_witness :
    (((onViewUpdate ⟨0, false, false, ⟨0, 0, 0, 0⟩, true⟩).2 = true
        ↔ (⟨0, false, false, ⟨0, 0, 0, 0⟩, true⟩ : ViewState).didViewUpdate = false)
      ∧ (onViewUpdate ⟨0, false, false, ⟨0, 0, 0, 0⟩, true⟩).1.didViewUpdate = true)
    ∧ (onViewUpdateN 3 ⟨0, false, false, ⟨0, 0, 0, 0⟩, true⟩).2 = 1 := by
  have h := onViewUpdate_coalesces ⟨0, false, false, ⟨0, 0, 0, 0⟩, true⟩
  exact ⟨⟨h.2.2.1 rfl, h.2.2.2.1 rfl⟩, h.2.2.2.2 3 (by decide) rfl rfl⟩

/-- C2: when `_boundsDirty` is false the `bounds` getter returns the cache,
calls `updateBounds()` zero times and leaves the state unchanged; when it
is true the getter calls `updateBounds()` exactly once, clears the flag and
returns the cache; and after one mutation (`onViewUpdate`), the first read
triggers exactly one `updateBounds()` call and a second read none. -/
theorem bounds_getter_lazy (u : ViewState → Bounds) (s : ViewState) :
    (s._boundsDirty = false → boundsGet u s = (s._bounds, s, 0))
    ∧ (s._boundsDirty = true →
        (boundsGet u s).2.2 = 1
        ∧ (boundsGet u s).2.1._boundsDirty = false
        ∧ (boundsGet u s).1 = (boundsGet u s).2.1._bounds)
    ∧ (boundsGet u (onViewUpdate s).1).2.2 = 1
    ∧ (boundsGet u (boundsGet u (onViewUpdate s).1).2.1).2.2 = 0 := by
  have hdirty : (onViewUpdate s).1._boundsDirty = true := by
    by_cases h : s.didViewUpdate <;> by_cases g : s.hasRenderGroup <;>
      simp [onViewUpdate, h, g]
  refine ⟨?_, ?_, ?_, ?_⟩
  · intro h; simp [boundsGet, h]
  · intro h; simp [boundsGet, h]
  · simp [boundsGet, hdirty]
  · simp [boundsGet, hdirty]

/-- Closed instance of `bounds_getter_lazy` with both dirty-flag hypotheses
discharged at concrete view states. -/
theorem bounds_getter_lazy_witness :
    boundsGet (fun _ => ⟨1, 2, 3, 4⟩) ⟨5, false, false, ⟨0, 0, 0, 0⟩, true⟩
      = (⟨0, 0, 0, 0⟩, ⟨5, false, false, ⟨0, 0, 0, 0⟩, true⟩, 0)
    ∧ ((boundsGet (fun _ => ⟨1, 2, 3, 4⟩) ⟨5, false, true, ⟨0, 0, 0, 0⟩, true⟩).2.2 = 1
        ∧ (boundsGet (fun _ => ⟨1, 2, 3, 4⟩)
            ⟨5, false, true, ⟨0, 0, 0, 0⟩, true⟩).2.1._boundsDirty = false
        ∧ (boundsGet (fun _ => ⟨1, 2, 3, 4⟩) ⟨5, false, true, ⟨0, 0, 0, 0⟩, true⟩).1
          = (boundsGet (fun _ => ⟨1, 2, 3, 4⟩)
              ⟨5, false, true, ⟨0, 0, 0, 0⟩, true⟩).2.1._bounds) := by
  exact ⟨(bounds_getter_lazy (fun _ => ⟨1, 2, 3, 4⟩)
      ⟨5, false, false, ⟨0, 0, 0, 0⟩, true⟩).1 rfl,
    (bounds_getter_lazy (fun _ => ⟨1, 2, 3, 4⟩)
      ⟨5, false, true, ⟨0, 0, 0, 0⟩, true⟩).2.1 rfl⟩

/-- In the branch where the mesh stayed batched with unchanged sizes,
`validateRenderable` returns the negation of `checkAndUpdateTexture`
applied to the record `validateUsedRecord` describes. -/
theorem validateRenderable_checkBranch (check : BatchableMesh → Texture → Bool)
    (p : MeshPipe) (m : Mesh) (d : MeshData)
    (hd : p._meshDataHash m.uid = some d) (hb : d.batched = m.batched)
    (hm : m.batched = true) (h1 : m._geometry.indicesLen = d.indexSize)
    (h2 : m._geometry.positionsLen = d.vertexSize) :
    (MeshPipe.validateRenderable check p m).1
      = !(check (MeshPipe.validateUsedRecord p m) m._texture) := by
  cases hg : p._gpuBatchableMeshHash m.uid <;>
    simp [MeshPipe.validateRenderable, MeshPipe._getMeshData,
      MeshPipe._getBatchableMesh, MeshPipe._initBatchableMesh,
      MeshPipe.validateUsedRecord, hd, hb, hm, h1, h2, hg]

/-- C3: for a mesh with an existing mesh-data record, `validateRenderable`
returns `true` iff the batched eligibility flipped, or (the mesh being
batched) the geometry's index/position array length differs from the
recorded sizes, or the texture fails the batcher's `checkAndUpdateTexture`;
otherwise — including a non-batched mesh staying non-batched — `false`. -/
theorem validateRenderable_spec (check : BatchableMesh → Texture → Bool)
    (p : MeshPipe) (m : Mesh) (d : MeshData)
    (hd : p._meshDataHash m.uid = some d) :
    ((MeshPipe.validateRenderable check p m).1 = true ↔
      (d.batched ≠ m.batched
        ∨ (m.batched = true
            ∧ (m._geometry.indicesLen ≠ d.indexSize
                ∨ m._geometry.positionsLen ≠ d.vertexSize))
        ∨ (m.batched = true
            ∧ check (MeshPipe.validateUsedRecord p m) m._texture = false))) := by
  by_cases hb : d.batched = m.batched
  · by_cases hm : m.batched = true
    · by_cases hsz : m._geometry.indicesLen ≠ d.indexSize
          ∨ m._geometry.positionsLen ≠ d.vertexSize
      · simp [MeshPipe.validateRenderable, MeshPipe._getMeshData, hd, hb, hm, hsz]
      · push_neg at hsz
        rw [validateRenderable_checkBranch check p m d hd hb hm hsz.1 hsz.2]
        simp [hb, hm, hsz.1, hsz.2]
    · have hm' : m.batched = false := by simpa using hm
      simp [MeshPipe.validateRenderable, MeshPipe._getMeshData, hd, hb, hm']
  · simp [MeshPipe.validateRenderable, MeshPipe._getMeshData, hd, hb]

/-- Closed instance of `validateRenderable_spec`: a pipe whose stored record
matches a batched mesh of unchanged sizes, with an always-compatible
texture check, reports no batch break. -/
theorem validateRenderable_spec_witness :
    ((fun _ _ => true) : BatchableMesh → Texture → Bool) = (fun _ _ => true)
    ∧ ((MeshPipe.validateRenderable (fun _ _ => true)
          ⟨fun u => if u = 7 then some ⟨true, 6, 8⟩ else none,
            fun u => if u = 7 then some ⟨3, ⟨6, 8⟩, 0⟩ else none⟩
          ⟨7, true, ⟨6, 8⟩, ⟨3, false⟩⟩).1 = true ↔
        ((⟨true, 6, 8⟩ : MeshData).batched ≠ (⟨7, true, ⟨6, 8⟩, ⟨3, false⟩⟩ : Mesh).batched
          ∨ ((⟨7, true, ⟨6, 8⟩, ⟨3, false⟩⟩ : Mesh).batched = true
              ∧ ((⟨7, true, ⟨6, 8⟩, ⟨3, false⟩⟩ : Mesh)._geometry.indicesLen
                    ≠ (⟨true, 6, 8⟩ : MeshData).indexSize
                  ∨ (⟨7, true, ⟨6, 8⟩, ⟨3, false⟩⟩ : Mesh)._geometry.positionsLen
                    ≠ (⟨true, 6, 8⟩ : MeshData).vertexSize))
          ∨ ((⟨7, true, ⟨6, 8⟩, ⟨3, false⟩⟩ : Mesh).batched = true
              ∧ (fun (_ : BatchableMesh) (_ : Texture) => true)
                  (MeshPipe.validateUsedRecord
                    ⟨fun u => if u = 7 then some ⟨true, 6, 8⟩ else none,
                      fun u => if u = 7 then some ⟨3, ⟨6, 8⟩, 0⟩ else none⟩
                    ⟨7, true, ⟨6, 8⟩, ⟨3, false⟩⟩) ⟨3, false⟩ = false))) :=
  ⟨rfl, validateRenderable_spec (fun _ _ => true) _ _ ⟨true, 6, 8⟩ rfl⟩

/-- C4: with the stored mesh-data marking the mesh not batched,
`addRenderable` emits the batcher's break and then the standalone mesh
instruction; with it marking it batched, the pooled record keyed by the
mesh's `uid` is obtained (or lazily allocated), its texture and geometry
refreshed, and it is submitted to the batcher with no break emitted. -/
theorem addRenderable_spec (p : MeshPipe) (m : Mesh)
    (instructionSet : List Instruction) (d : MeshData)
    (hd : p._meshDataHash m.uid = some d) :
    (d.batched = false →
      MeshPipe.addRenderable p m instructionSet
        = (p, instructionSet ++ [Instruction.breakBatch, Instruction.meshDraw m.uid], []))
    ∧ (d.batched = true →
        (MeshPipe.addRenderable p m instructionSet).2.1 = instructionSet
        ∧ (MeshPipe.addRenderable p m instructionSet).2.2
            = [{ BatchableMesh.setTexture (MeshPipe._getBatchableMesh p m).1 m._texture
                  with geometry := m._geometry }]
        ∧ (MeshPipe.addRenderable p m instructionSet).1._gpuBatchableMeshHash m.uid
            = some { BatchableMesh.setTexture (MeshPipe._getBatchableMesh p m).1 m._texture
                  with geometry := m._geometry }
        ∧ (∀ r, p._gpuBatchableMeshHash m.uid = some r →
            (MeshPipe._getBatchableMesh p m).1 = r)) := by
  constructor
  · intro h
    simp [MeshPipe.addRenderable, MeshPipe._getMeshData, hd, h, batcherBreak]
  · intro h
    refine ⟨?_, ?_, ?_, ?_⟩
    · simp [MeshPipe.addRenderable, MeshPipe._getMeshData, hd, h]
    · simp [MeshPipe.addRenderable, MeshPipe._getMeshData, hd, h]
    · cases hg : p._gpuBatchableMeshHash m.uid <;>
        simp [MeshPipe.addRenderable, MeshPipe._getMeshData, MeshPipe._getBatchableMesh,
          MeshPipe._initBatchableMesh, hd, h, hg, setHash]
    · intro r hr
      simp [MeshPipe._getBatchableMesh, hr]

/-- Closed instance of `addRenderable_spec`, exercising both the
non-batched (break + standalone draw) and the batched (submit, no break)
conclusions at concrete pipes. -/
theorem addRenderable_spec_witness :
    MeshPipe.addRenderable
        ⟨fun u => if u = 4 then some ⟨false, 1, 2⟩ else none, fun _ => none⟩
        ⟨4, false, ⟨1, 2⟩, ⟨9, false⟩⟩ []
      = (⟨fun u => if u = 4 then some ⟨false, 1, 2⟩ else none, fun _ => none⟩,
          [Instruction.breakBatch, Instruction.meshDraw 4], [])
    ∧ (MeshPipe.addRenderable
        ⟨fun u => if u = 4 then some ⟨true, 1, 2⟩ else none, fun _ => none⟩
        ⟨4, true, ⟨1, 2⟩, ⟨9, false⟩⟩ []).2.1 = [] := by
  refine ⟨?_, ?_⟩
  · exact ((addRenderable_spec
      ⟨fun u => if u = 4 then some ⟨false, 1, 2⟩ else none, fun _ => none⟩
      ⟨4, false, ⟨1, 2⟩, ⟨9, false⟩⟩ [] ⟨false, 1, 2⟩ rfl).1 rfl).trans (by simp)
  · exact ((addRenderable_spec
      ⟨fun u => if u = 4 then some ⟨true, 1, 2⟩ else none, fun _ => none⟩
      ⟨4, true, ⟨1, 2⟩, ⟨9, false⟩⟩ [] ⟨true, 1, 2⟩ rfl).2 rfl).1

/-- C5: calling `destroyRenderable` twice in a row is safe — in the total
embedding both calls are defined — and afterwards the pipe holds neither a
mesh-data record nor a pooled record for the mesh's `uid`; the pooled
record, when one existed, was returned to `BigPool` exactly once, and
never when none existed. -/
theorem destroyRenderable_idempotent (p : MeshPipe) (m : Mesh) :
    (MeshPipe.destroyRenderable (MeshPipe.destroyRenderable p m).1 m).1._meshDataHash m.uid
        = none
    ∧ (MeshPipe.destroyRenderable
        (MeshPipe.destroyRenderable p m).1 m).1._gpuBatchableMeshHash m.uid = none
    ∧ (MeshPipe.destroyRenderable (MeshPipe.destroyRenderable p m).1 m).2 = 0
    ∧ (∀ r, p._gpuBatchableMeshHash m.uid = some r →
        (MeshPipe.destroyRenderable p m).2
          + (MeshPipe.destroyRenderable (MeshPipe.destroyRenderable p m).1 m).2 = 1)
    ∧ (p._gpuBatchableMeshHash m.uid = none →
        (MeshPipe.destroyRenderable p m).2
          + (MeshPipe.destroyRenderable (MeshPipe.destroyRenderable p m).1 m).2 = 0) := by
  cases hg : p._gpuBatchableMeshHash m.uid <;>
    simp [MeshPipe.destroyRenderable, setHash, hg]

/-- Closed instance of `destroyRenderable_idempotent` with the "a pooled
record existed" hypothesis discharged at a concrete pipe. -/
theorem destroyRenderable_idempotent_witness :
    (MeshPipe.destroyRenderable
      (MeshPipe.destroyRenderable
        ⟨fun u => if u = 2 then some ⟨true, 1, 2⟩ else none,
          fun u => if u = 2 then some ⟨5, ⟨1, 2⟩, 0⟩ else none⟩
        ⟨2, true, ⟨1, 2⟩, ⟨5, false⟩⟩).1
      ⟨2, true, ⟨1, 2⟩, ⟨5, false⟩⟩).1._meshDataHash 2 = none
    ∧ (MeshPipe.destroyRenderable
        ⟨fun u => if u = 2 then some ⟨true, 1, 2⟩ else none,
          fun u => if u = 2 then some ⟨5, ⟨1, 2⟩, 0⟩ else none⟩
        ⟨2, true, ⟨1, 2⟩, ⟨5, false⟩⟩).2
      + (MeshPipe.destroyRenderable
          (MeshPipe.destroyRenderable
            ⟨fun u => if u = 2 then some ⟨true, 1, 2⟩ else none,
              fun u => if u = 2 then some ⟨5, ⟨1, 2⟩, 0⟩ else none⟩
            ⟨2, true, ⟨1, 2⟩, ⟨5, false⟩⟩).1
          ⟨2, true, ⟨1, 2⟩, ⟨5, false⟩⟩).2 = 1 := by
  have h := destroyRenderable_idempotent
    ⟨fun u => if u = 2 then some ⟨true, 1, 2⟩ else none,
      fun u => if u = 2 then some ⟨5, ⟨1, 2⟩, 0⟩ else none⟩
    ⟨2, true, ⟨1, 2⟩, ⟨5, false⟩⟩
  exact ⟨h.1, h.2.2.2.1 ⟨5, ⟨1, 2⟩, 0⟩ rfl⟩

/-- The pipe state after the fast path refreshes the pooled record `bm` of
mesh `m`: only that record's texture/geometry references change. -/
def MeshPipe.refreshAt (p : MeshPipe) (m : Mesh) (bm : BatchableMesh) : MeshPipe :=
  { p with
    _gpuBatchableMeshHash :=
      setHash p._gpuBatchableMeshHash m.uid
        (some { BatchableMesh.setTexture bm m._texture with geometry := m._geometry }) }

/-- C7: for a batched mesh whose pooled record exists, `updateRenderable`
only refreshes that record's texture and geometry and notifies its batcher
via `updateElement`; it never invokes `checkAndUpdateTexture` (count `0`)
and leaves `_meshDataHash` untouched; for a non-batched mesh it changes
nothing. -/
theorem updateRenderable_spec (check : BatchableMesh → Texture → Bool)
    (p : MeshPipe) (m : Mesh) :
    (∀ bm, m.batched = true → p._gpuBatchableMeshHash m.uid = some bm →
      ∃ pipeAfter : MeshPipe,
        MeshPipe.updateRenderable check p m
          = some (pipeAfter, 0,
              [{ BatchableMesh.setTexture bm m._texture with geometry := m._geometry }])
        ∧ (∀ u, pipeAfter._meshDataHash u = p._meshDataHash u)
        ∧ pipeAfter._gpuBatchableMeshHash m.uid
            = some { BatchableMesh.setTexture bm m._texture with geometry := m._geometry }
        ∧ (∀ u, u ≠ m.uid →
            pipeAfter._gpuBatchableMeshHash u = p._gpuBatchableMeshHash u))
    ∧ (m.batched = false → MeshPipe.updateRenderable check p m = some (p, 0, [])) := by
  constructor
  · intro bm hb hg
    refine ⟨MeshPipe.refreshAt p m bm, ?_, ?_, ?_, ?_⟩
    · simp [MeshPipe.updateRenderable, MeshPipe.refreshAt, hb, hg]
    · intro u; rfl
    · simp [MeshPipe.refreshAt, setHash]
    · intro u hu; simp [MeshPipe.refreshAt, setHash, hu]
  · intro hb
    simp [MeshPipe.updateRenderable, hb]

/-- Closed instance of `updateRenderable_spec` with the batched-and-present
hypotheses discharged at a concrete pipe. -/
theorem updateRenderable_spec_witness :
    ∃ pipeAfter : MeshPipe,
      MeshPipe.updateRenderable (fun _ _ => false)
          ⟨fun _ => none, fun u => if u = 3 then some ⟨1, ⟨4, 6⟩, 0⟩ else none⟩
          ⟨3, true, ⟨9, 12⟩, ⟨2, false⟩⟩
        = some (pipeAfter, 0,
            [{ BatchableMesh.setTexture ⟨1, ⟨4, 6⟩, 0⟩ ⟨2, false⟩
                with geometry := (⟨9, 12⟩ : MeshGeometry) }])
      ∧ (∀ u, pipeAfter._meshDataHash u = none) := by
  obtain ⟨pa, h1, h2, -, -⟩ := (updateRenderable_spec (fun _ _ => false)
    ⟨fun _ => none, fun u => if u = 3 then some ⟨1, ⟨4, 6⟩, 0⟩ else none⟩
    ⟨3, true, ⟨9, 12⟩, ⟨2, false⟩⟩).1 ⟨1, ⟨4, 6⟩, 0⟩ rfl rfl
  exact ⟨pa, h1, fun u => h2 u⟩

/-- C6 counterexample: the `NineSliceSprite` `width` setter accepts `-1`
without validation, and the next `bounds` read then computes a `Bounds`
with `minX > maxX`, refuting the claimed invariant as stated. -/
theorem nineSlice_bounds_unordered_counterexample :
    ¬ ((NineSliceSprite.boundsGetter
          (NineSliceSprite.setWidth
            ⟨⟨0, false, false, ⟨0, 0, 0, 0⟩, true⟩, ⟨0, 0⟩, 10, 10, ⟨1, false⟩⟩
            (-1)).1).1.minX
        ≤ (NineSliceSprite.boundsGetter
            (NineSliceSprite.setWidth
              ⟨⟨0, false, false, ⟨0, 0, 0, 0⟩, true⟩, ⟨0, 0⟩, 10, 10, ⟨1, false⟩⟩
              (-1)).1).1.maxX) := by
  simp [NineSliceSprite.boundsGetter, NineSliceSprite.setWidth,
    NineSliceSprite.onViewUpdate, onViewUpdate, boundsGet,
    NineSliceSprite.updateBounds]

/-- C6 (amended): provided the sprite's `_width`/`_height`, respectively the
measured text width/height, are nonnegative, the `Bounds` computed by
`NineSliceSprite.updateBounds` and `HTMLText.updateBounds` satisfy
`minX ≤ maxX` and `minY ≤ maxY`; and when `_boundsDirty` is set the
`bounds` getter indeed returns the `updateBounds()` result. -/
theorem updateBounds_ordered (s : NineSliceSprite) (anchor : Anchor)
    (mw mh : ℚ) (hw : 0 ≤ s._width) (hh : 0 ≤ s._height)
    (hmw : 0 ≤ mw) (hmh : 0 ≤ mh) :
    ((NineSliceSprite.updateBounds s).minX ≤ (NineSliceSprite.updateBounds s).maxX
      ∧ (NineSliceSprite.updateBounds s).minY ≤ (NineSliceSprite.updateBounds s).maxY)
    ∧ ((HTMLText.updateBounds anchor mw mh).minX
          ≤ (HTMLText.updateBounds anchor mw mh).maxX
      ∧ (HTMLText.updateBounds anchor mw mh).minY
          ≤ (HTMLText.updateBounds anchor mw mh).maxY)
    ∧ (s.view._boundsDirty = true →
        (NineSliceSprite.boundsGetter s).1 = NineSliceSprite.updateBounds s) := by
  refine ⟨⟨?_, ?_⟩, ⟨?_, ?_⟩, ?_⟩
  · simp [NineSliceSprite.updateBounds]; linarith
  · simp [NineSliceSprite.updateBounds]; linarith
  · simp [HTMLText.updateBounds]; linarith
  · simp [HTMLText.updateBounds]; linarith
  · intro h
    simp [NineSliceSprite.boundsGetter, boundsGet, h]

/-- Closed instance of `updateBounds_ordered` with all nonnegativity and
dirty-flag hypotheses discharged at a concrete sprite and measurement. -/
theorem updateBounds_ordered_witness :
    ((NineSliceSprite.updateBounds
        ⟨⟨0, false, true, ⟨0, 0, 0, 0⟩, true⟩, ⟨1/2, 1/2⟩, 10, 4, ⟨1, false⟩⟩).minX
      ≤ (NineSliceSprite.updateBounds
        ⟨⟨0, false, true, ⟨0, 0, 0, 0⟩, true⟩, ⟨1/2, 1/2⟩, 10, 4, ⟨1, false⟩⟩).maxX)
    ∧ (NineSliceSprite.boundsGetter
        ⟨⟨0, false, true, ⟨0, 0, 0, 0⟩, true⟩, ⟨1/2, 1/2⟩, 10, 4, ⟨1, false⟩⟩).1
      = NineSliceSprite.updateBounds
        ⟨⟨0, false, true, ⟨0, 0, 0, 0⟩, true⟩, ⟨1/2, 1/2⟩, 10, 4, ⟨1, false⟩⟩ := by
  have h := updateBounds_ordered
    ⟨⟨0, false, true, ⟨0, 0, 0, 0⟩, true⟩, ⟨1/2, 1/2⟩, 10, 4, ⟨1, false⟩⟩
    ⟨0, 0⟩ 3 5 (by norm_num) (by norm_num) (by norm_num) (by norm_num)
  exact ⟨h.1.1, h.2.2 rfl⟩

/-- C8: on the bounds produced by the text `updateBounds()` formula, the
overriding `AbstractText.containsPoint` agrees with the inherited
`ViewContainer.containsPoint` rectangle test at every point. -/
theorem containsPoint_agrees (anchor : Anchor) (w h px py : ℚ) :
    AbstractText.containsPoint (HTMLText.updateBounds anchor w h) anchor px py
      = ViewContainer.containsPoint (HTMLText.updateBounds anchor w h) px py := by
  obtain ⟨ax, ay⟩ := anchor
  simp only [AbstractText.containsPoint, ViewContainer.containsPoint,
    HTMLText.updateBounds, Bounds.width, Bounds.height]
  have e1 : -(-ax * w + w - -ax * w) * ax = -ax * w := by ring
  have e2 : -(-ax * w + w - -ax * w) * ax + (-ax * w + w - -ax * w)
      = -ax * w + w := by ring
  have e3 : -(-ay * h + h - -ay * h) * ay = -ay * h := by ring
  have e4 : -(-ay * h + h - -ay * h) * ay + (-ay * h + h - -ay * h)
      = -ay * h + h := by ring
  simp only [e2]
  simp only [e1]
  simp only [e4]
  simp only [e3]
  by_cases h1 : -ax * w ≤ px <;> by_cases h2 : px ≤ -ax * w + w <;>
    by_cases h3 : -ay * h ≤ py <;> by_cases h4 : py ≤ -ay * h + h <;>
    simp [h1, h2, h3, h4, ge_iff_le, Bool.and_assoc]

/-- C9: assigning a `NineSliceSprite`'s `texture` the very texture it holds,
or assigning an `AbstractText`'s `text` a value whose string form equals the
current text, is a no-op: the state (change tick, dirty flag, all fields)
is unchanged and `onViewUpdate` — hence any render-group notification —
never runs. -/
theorem same_value_setters_noop (s : NineSliceSprite) (t : AbstractText) :
    NineSliceSprite.setTexture s s._texture = (s, false)
    ∧ AbstractText.setText t t._text = (t, false) := by
  constructor
  · simp [NineSliceSprite.setTexture]
  · simp [AbstractText.setText]

/-- C10: white (`0xFFFFFF`) is a two-sided identity of `multiplyColors` on
24-bit BGR colors, whatever the external `multiplyHexColors` does. -/
theorem multiplyColors_white_identity (multiplyHexColors : ℕ → ℕ → ℕ)
    (c : ℕ) (hc : c < 2 ^ 24) :
    multiplyColors multiplyHexColors WHITE_BGR c = c
    ∧ multiplyColors multiplyHexColors c WHITE_BGR = c := by
  constructor
  · simp [multiplyColors]
  · by_cases h : c = WHITE_BGR <;> simp [multiplyColors, h]

/-- Closed instance of `multiplyColors_white_identity` at a concrete color
and a deliberately garbage external multiplier. -/
theorem multiplyColors_white_identity_witness :
    0x123456 < 2 ^ 24
    ∧ multiplyColors (fun _ _ => 0) WHITE_BGR 0x123456 = 0x123456
    ∧ multiplyColors (fun _ _ => 0) 0x123456 WHITE_BGR = 0x123456 := by
  refine ⟨by norm_num, ?_⟩
  exact multiplyColors_white_identity (fun _ _ => 0) 0x123456 (by norm_num)

end Pixi
